import Mathlib

/-!
Verification of the camera module of `wgpu_test` (`src/camera.rs`).

The Rust code uses `cgmath` over `f32`; we embed it shallowly over the real
numbers `ℝ`, translating the `cgmath` operations the code calls
(`Vector3`/`Point3` arithmetic, `normalize`, `magnitude`, `cross`, `dot`,
`Matrix4` column-major construction and multiplication, `look_at_rh`,
`perspective`, `Quaternion::from_axis_angle`, `rotate_vector`) from their
library sources, and the repository's own `Camera`, `CameraUniform` and
`CameraController` from `src/camera.rs`.
-/

/-- A 3-component vector over ℝ, embedding `cgmath::Vector3<f32>` (and
`cgmath::Point3<f32>`, whose affine arithmetic coincides componentwise). -/
@[ext]
structure Vec3 where
  x : ℝ
  y : ℝ
  z : ℝ

/-- A 4-component vector over ℝ, embedding `cgmath::Vector4<f32>`. -/
@[ext]
structure Vec4 where
  x : ℝ
  y : ℝ
  z : ℝ
  w : ℝ

/-- Componentwise addition, `Vector3::add` / point translation. -/
def vadd (a b : Vec3) : Vec3 := ⟨a.x + b.x, a.y + b.y, a.z + b.z⟩

/-- Componentwise subtraction, `Vector3::sub` / `Point3 - Point3`. -/
def vsub (a b : Vec3) : Vec3 := ⟨a.x - b.x, a.y - b.y, a.z - b.z⟩

/-- Vector-times-scalar, `Vector3::mul<f32>` (`v * k`). -/
def smul (a : Vec3) (k : ℝ) : Vec3 := ⟨a.x * k, a.y * k, a.z * k⟩

/-- Dot product, `cgmath::InnerSpace::dot`. -/
def dot (a b : Vec3) : ℝ := a.x * b.x + a.y * b.y + a.z * b.z

/-- Cross product, `Vector3::cross`. -/
def cross (a b : Vec3) : Vec3 :=
  ⟨a.y * b.z - a.z * b.y, a.z * b.x - a.x * b.z, a.x * b.y - a.y * b.x⟩

/-- Squared magnitude `dot v v`, `cgmath::InnerSpace::magnitude2`. -/
def normSq (v : Vec3) : ℝ := dot v v

/-- Magnitude, `cgmath::InnerSpace::magnitude` (`sqrt (dot v v)`). -/
noncomputable def magnitude (v : Vec3) : ℝ := Real.sqrt (normSq v)

/-- Normalization, `cgmath::InnerSpace::normalize` (named `vnormalize` here
because Mathlib already owns the name `normalize`): `self * (1 / magnitude)`.
Over ℝ division by zero yields zero, so `normalize 0 = 0` in the embedding
(the `f32` code would produce NaNs there). -/
noncomputable def vnormalize (v : Vec3) : Vec3 := smul v (1 / magnitude v)

/-- Degrees to radians, the `From<Deg<f32>> for Rad<f32>` conversion in
cgmath: `deg * π / 180`. -/
noncomputable def degToRad (d : ℝ) : ℝ := d * Real.pi / 180

/-- A quaternion with scalar part `s` and vector part `v`, embedding
`cgmath::Quaternion<f32>` (`from_sv(s, v)`). -/
structure Quat where
  s : ℝ
  v : Vec3

/-- Embeds `Quaternion::from_axis_angle(axis, Deg(angle))`: cgmath converts
the angle to radians, halves it, and builds `from_sv(cos, axis * sin)`. -/
noncomputable def quatFromAxisAngleDeg (axis : Vec3) (angleDeg : ℝ) : Quat :=
  ⟨Real.cos (degToRad angleDeg * 0.5), smul axis (Real.sin (degToRad angleDeg * 0.5))⟩

/-- Embeds `cgmath`'s `Rotation::rotate_vector` for quaternions:
`tmp = q.v × vec + vec * q.s; vec + (q.v × tmp) * 2`. -/
def rotateVector (q : Quat) (vec : Vec3) : Vec3 :=
  vadd vec (smul (cross q.v (vadd (cross q.v vec) (smul vec q.s))) 2)

/-- A 4×4 matrix stored as four columns, embedding `cgmath::Matrix4<f32>`
(`from_cols c0 c1 c2 c3`, column-major as in cgmath). -/
@[ext]
structure Mat4 where
  c0 : Vec4
  c1 : Vec4
  c2 : Vec4
  c3 : Vec4

/-- Matrix-vector product `m * v` (columns weighted by the components of `v`),
as in `cgmath::Matrix4::mul<Vector4>`. -/
def mulVec4 (m : Mat4) (v : Vec4) : Vec4 :=
  ⟨m.c0.x * v.x + m.c1.x * v.y + m.c2.x * v.z + m.c3.x * v.w,
   m.c0.y * v.x + m.c1.y * v.y + m.c2.y * v.z + m.c3.y * v.w,
   m.c0.z * v.x + m.c1.z * v.y + m.c2.z * v.z + m.c3.z * v.w,
   m.c0.w * v.x + m.c1.w * v.y + m.c2.w * v.z + m.c3.w * v.w⟩

/-- Matrix product `a * b`: column `j` of the result is `a * (column j of b)`,
as in `cgmath::Matrix4::mul<Matrix4>`. -/
def mat4Mul (a b : Mat4) : Mat4 :=
  ⟨mulVec4 a b.c0, mulVec4 a b.c1, mulVec4 a b.c2, mulVec4 a b.c3⟩

/-- Componentwise Vec4 addition (for stating the spec's description of the
correction matrix as a sum). -/
def v4add (a b : Vec4) : Vec4 := ⟨a.x + b.x, a.y + b.y, a.z + b.z, a.w + b.w⟩

/-- Componentwise matrix addition. -/
def mat4Add (a b : Mat4) : Mat4 :=
  ⟨v4add a.c0 b.c0, v4add a.c1 b.c1, v4add a.c2 b.c2, v4add a.c3 b.c3⟩

/-- The diagonal 4×4 matrix with the given diagonal entries. -/
def diagMat4 (a b c d : ℝ) : Mat4 :=
  ⟨⟨a, 0, 0, 0⟩, ⟨0, b, 0, 0⟩, ⟨0, 0, c, 0⟩, ⟨0, 0, 0, d⟩⟩

/-- The 4×4 identity matrix, `cgmath::Matrix4::identity`. -/
def mat4Identity : Mat4 := diagMat4 1 1 1 1

/-- The constant `OPENGL_TO_WGPU_MATRIX` from `src/camera.rs`, given there by
its four columns `(1,0,0,0), (0,1,0,0), (0,0,0.5,0), (0,0,0.5,1)`. -/
def OPENGL_TO_WGPU_MATRIX : Mat4 :=
  ⟨⟨1, 0, 0, 0⟩, ⟨0, 1, 0, 0⟩, ⟨0, 0, 0.5, 0⟩, ⟨0, 0, 0.5, 1⟩⟩

/-- Embeds `cgmath::Matrix4::look_at_rh(eye, center, up)` (which forwards to
`look_to_rh` with `dir = center - eye`): `f = dir.normalize()`,
`s = f.cross(up).normalize()`, `u = s.cross(f)`, and the column-major matrix
with columns `(s.x,u.x,-f.x,0)`, `(s.y,u.y,-f.y,0)`, `(s.z,u.z,-f.z,0)`,
`(-eye·s, -eye·u, eye·f, 1)`. -/
noncomputable def lookAtRh (eye target up : Vec3) : Mat4 :=
  let f := vnormalize (vsub target eye)
  let s := vnormalize (cross f up)
  let u := cross s f
  ⟨⟨s.x, u.x, -f.x, 0⟩,
   ⟨s.y, u.y, -f.y, 0⟩,
   ⟨s.z, u.z, -f.z, 0⟩,
   ⟨-(dot eye s), -(dot eye u), dot eye f, 1⟩⟩

/-- Embeds `cgmath::perspective(Deg(fovy), aspect, near, far)`: with
`f = cot(fovy_rad / 2)`, the column-major matrix with columns
`(f/aspect,0,0,0)`, `(0,f,0,0)`, `(0,0,(far+near)/(near-far),-1)`,
`(0,0,2*far*near/(near-far),0)`. -/
noncomputable def perspectiveDeg (fovy aspect near far : ℝ) : Mat4 :=
  let f := (Real.tan (degToRad fovy / 2))⁻¹
  ⟨⟨f / aspect, 0, 0, 0⟩,
   ⟨0, f, 0, 0⟩,
   ⟨0, 0, (far + near) / (near - far), -1⟩,
   ⟨0, 0, (2 * far * near) / (near - far), 0⟩⟩

/-- The `Camera` struct of `src/camera.rs`. -/
@[ext]
structure Camera where
  eye : Vec3
  target : Vec3
  up : Vec3
  aspect : ℝ
  fovy : ℝ
  znear : ℝ
  zfar : ℝ

/-- Embeds `Camera::build_view_projection_matrix` from `src/camera.rs`:
`view = look_at_rh(eye, target, up)`, `proj = perspective(Deg(fovy), aspect,
znear, zfar)`, result `OPENGL_TO_WGPU_MATRIX * proj * view`. The Rust method
takes `&self` and mutates nothing; the embedding is a pure function. -/
noncomputable def Camera.build_view_projection_matrix (c : Camera) : Mat4 :=
  let view := lookAtRh c.eye c.target c.up
  let proj := perspectiveDeg c.fovy c.aspect c.znear c.zfar
  mat4Mul OPENGL_TO_WGPU_MATRIX (mat4Mul proj view)

/-- The `CameraUniform` struct of `src/camera.rs`; `[[f32; 4]; 4]` is
column-major like `Matrix4`, so the `.into()` conversion is the identity in
this embedding and the field is kept as a `Mat4`. -/
structure CameraUniform where
  view_proj : Mat4

/-- Embeds `CameraUniform::new`: `view_proj = Matrix4::identity().into()`. -/
def CameraUniform.new : CameraUniform := ⟨mat4Identity⟩

/-- Embeds `CameraUniform::update_view_proj`: overwrites `view_proj` with
`camera.build_view_projection_matrix().into()`. -/
noncomputable def CameraUniform.update_view_proj (_u : CameraUniform) (camera : Camera) :
    CameraUniform :=
  ⟨camera.build_view_projection_matrix⟩

/-- The `CameraController` struct of `src/camera.rs`: a speed and the ten
intent flags, in source order. -/
structure CameraController where
  speed : ℝ
  is_forward_pressed : Bool
  is_backward_pressed : Bool
  is_left_pressed : Bool
  is_right_pressed : Bool
  is_left_rotate_pressed : Bool
  is_right_rotate_pressed : Bool
  is_up_rotate_pressed : Bool
  is_down_rotate_pressed : Bool
  is_up_pressed : Bool
  is_down_pressed : Bool

/-- Embeds `CameraController::new(speed)`: stores the speed and initializes
all ten flags to `false`. -/
def CameraController.new (speed : ℝ) : CameraController :=
  ⟨speed, false, false, false, false, false, false, false, false, false, false⟩

/-- The key codes `handle_key` matches on, plus `other` covering every
`winit::keyboard::KeyCode` variant outside the ten recognized ones. -/
inductive KeyCode where
  | keyW
  | keyS
  | keyA
  | keyD
  | arrowLeft
  | arrowRight
  | arrowUp
  | arrowDown
  | keyE
  | keyQ
  | other (n : Nat)
deriving DecidableEq, Repr

/-- Embeds `CameraController::handle_key(code, is_pressed)`. The Rust method
mutates `self` and returns a `bool`; the embedding returns the updated
controller paired with that boolean. -/
def CameraController.handle_key (self : CameraController) (code : KeyCode)
    (is_pressed : Bool) : CameraController × Bool :=
  match code with
  | .keyW => ({ self with is_forward_pressed := is_pressed }, true)
  | .keyS => ({ self with is_backward_pressed := is_pressed }, true)
  | .keyA => ({ self with is_left_pressed := is_pressed }, true)
  | .keyD => ({ self with is_right_pressed := is_pressed }, true)
  | .arrowLeft => ({ self with is_left_rotate_pressed := is_pressed }, true)
  | .arrowRight => ({ self with is_right_rotate_pressed := is_pressed }, true)
  | .arrowUp => ({ self with is_up_rotate_pressed := is_pressed }, true)
  | .arrowDown => ({ self with is_down_rotate_pressed := is_pressed }, true)
  | .keyE => ({ self with is_up_pressed := is_pressed }, true)
  | .keyQ => ({ self with is_down_pressed := is_pressed }, true)
  | .other _ => (self, false)

/-!
The body of `CameraController::update_camera(&self, camera: &mut Camera)` is
ten sequential `if` blocks; we embed each block as a step function acting on
the current camera, and `update_camera` as their composition in source
order. `forward`, `forward_norm` and `forward_mag` are computed once up
front in the source and threaded through as parameters. The source computes
`right = forward_norm.cross(camera.up)` once before the up/down-rotate pair;
since no branch ever writes `camera.up`, recomputing it inside each of those
two steps is the same value.
-/

/-- `if self.is_forward_pressed && forward_mag > self.speed { eye += forward_norm * speed * 0.05; target += ... }`. -/
noncomputable def forwardStep (self : CameraController) (forward_norm : Vec3)
    (forward_mag : ℝ) (camera : Camera) : Camera :=
  if self.is_forward_pressed ∧ forward_mag > self.speed then
    { camera with
      eye := vadd camera.eye (smul (smul forward_norm self.speed) 0.05),
      target := vadd camera.target (smul (smul forward_norm self.speed) 0.05) }
  else camera

/-- `if self.is_backward_pressed { eye -= forward_norm * speed * 0.05; target -= ... }`. -/
noncomputable def backwardStep (self : CameraController) (forward_norm : Vec3)
    (camera : Camera) : Camera :=
  if self.is_backward_pressed then
    { camera with
      eye := vsub camera.eye (smul (smul forward_norm self.speed) 0.05),
      target := vsub camera.target (smul (smul forward_norm self.speed) 0.05) }
  else camera

/-- `if self.is_left_pressed { right = forward_norm × up; eye -= right * speed * 0.05; target -= ... }`. -/
noncomputable def leftStep (self : CameraController) (forward_norm : Vec3)
    (camera : Camera) : Camera :=
  if self.is_left_pressed then
    let right := cross forward_norm camera.up
    { camera with
      eye := vsub camera.eye (smul (smul right self.speed) 0.05),
      target := vsub camera.target (smul (smul right self.speed) 0.05) }
  else camera

/-- `if self.is_right_pressed { right = forward_norm × up; eye += right * speed * 0.05; target += ... }`. -/
noncomputable def rightStep (self : CameraController) (forward_norm : Vec3)
    (camera : Camera) : Camera :=
  if self.is_right_pressed then
    let right := cross forward_norm camera.up
    { camera with
      eye := vadd camera.eye (smul (smul right self.speed) 0.05),
      target := vadd camera.target (smul (smul right self.speed) 0.05) }
  else camera

/-- `if self.is_left_rotate_pressed { rotation = from_axis_angle(up, Deg(speed)); target = eye + rotation.rotate_vector(forward) }`. -/
noncomputable def leftRotateStep (self : CameraController) (forward : Vec3)
    (camera : Camera) : Camera :=
  if self.is_left_rotate_pressed then
    let rotation := quatFromAxisAngleDeg camera.up self.speed
    { camera with target := vadd camera.eye (rotateVector rotation forward) }
  else camera

/-- `if self.is_right_rotate_pressed { rotation = from_axis_angle(up, Deg(-speed)); target = eye + rotation.rotate_vector(forward) }`. -/
noncomputable def rightRotateStep (self : CameraController) (forward : Vec3)
    (camera : Camera) : Camera :=
  if self.is_right_rotate_pressed then
    let rotation := quatFromAxisAngleDeg camera.up (-self.speed)
    { camera with target := vadd camera.eye (rotateVector rotation forward) }
  else camera

/-- `if self.is_up_rotate_pressed { rotation = from_axis_angle(right, Deg(speed)); target = eye + rotation.rotate_vector(forward) }` with `right = forward_norm × up`. -/
noncomputable def upRotateStep (self : CameraController) (forward_norm forward : Vec3)
    (camera : Camera) : Camera :=
  if self.is_up_rotate_pressed then
    let right := cross forward_norm camera.up
    let rotation := quatFromAxisAngleDeg right self.speed
    { camera with target := vadd camera.eye (rotateVector rotation forward) }
  else camera

/-- `if self.is_down_rotate_pressed { rotation = from_axis_angle(right, Deg(-speed)); target = eye + rotation.rotate_vector(forward) }` with `right = forward_norm × up`. -/
noncomputable def downRotateStep (self : CameraController) (forward_norm forward : Vec3)
    (camera : Camera) : Camera :=
  if self.is_down_rotate_pressed then
    let right := cross forward_norm camera.up
    let rotation := quatFromAxisAngleDeg right (-self.speed)
    { camera with target := vadd camera.eye (rotateVector rotation forward) }
  else camera

/-- `if self.is_up_pressed { eye += up * speed * 0.05; target += ... }`. -/
noncomputable def upStep (self : CameraController) (camera : Camera) : Camera :=
  if self.is_up_pressed then
    { camera with
      eye := vadd camera.eye (smul (smul camera.up self.speed) 0.05),
      target := vadd camera.target (smul (smul camera.up self.speed) 0.05) }
  else camera

/-- `if self.is_down_pressed { eye -= up * speed * 0.05; target -= ... }`. -/
noncomputable def downStep (self : CameraController) (camera : Camera) : Camera :=
  if self.is_down_pressed then
    { camera with
      eye := vsub camera.eye (smul (smul camera.up self.speed) 0.05),
      target := vsub camera.target (smul (smul camera.up self.speed) 0.05) }
  else camera

/-- Embeds `CameraController::update_camera(&self, camera: &mut Camera)` from
`src/camera.rs`: `forward`, `forward_norm` and `forward_mag` are computed
once up front (`speed_limit = 0.05` is inlined into the steps), then the ten
conditional blocks run in source order, each acting on the camera produced by
the previous ones. -/
noncomputable def CameraController.update_camera (self : CameraController)
    (camera : Camera) : Camera :=
  let forward := vsub camera.target camera.eye
  let forward_norm := vnormalize forward
  let forward_mag := magnitude forward
  downStep self (upStep self
    (downRotateStep self forward_norm forward (upRotateStep self forward_norm forward
      (rightRotateStep self forward (leftRotateStep self forward
        (rightStep self forward_norm (leftStep self forward_norm
          (backwardStep self forward_norm (forwardStep self forward_norm forward_mag camera)))))))))

/-- The correction matrix exactly as the spec describes it: the diagonal
matrix `diag(1,1,0.5,0)` plus the translation-by-`0.5`-in-z contribution
placed in the fourth column, `(0,0,0.5,1)`. This definition follows the
spec's words, to be compared with `OPENGL_TO_WGPU_MATRIX` from the source. -/
def correctionSpec : Mat4 :=
  mat4Add (diagMat4 1 1 0.5 0)
    ⟨⟨0, 0, 0, 0⟩, ⟨0, 0, 0, 0⟩, ⟨0, 0, 0, 0⟩, ⟨0, 0, 0.5, 1⟩⟩

/-! ## Helper lemmas -/

/-- Updating a camera with a controller whose ten flags are all `false`
returns the camera unchanged (every branch of `update_camera` is skipped). -/
theorem update_camera_no_flags (speed : ℝ) (cam : Camera) :
    CameraController.update_camera
      ⟨speed, false, false, false, false, false, false, false, false, false, false⟩ cam = cam := by
  simp [CameraController.update_camera, forwardStep, backwardStep, leftStep, rightStep,
    leftRotateStep, rightRotateStep, upRotateStep, downRotateStep, upStep, downStep]

/-- `forwardStep` writes at most `eye` and `target`. -/
theorem forwardStep_frame (self : CameraController) (fn : Vec3) (fm : ℝ) (c : Camera) :
    (forwardStep self fn fm c).up = c.up ∧ (forwardStep self fn fm c).aspect = c.aspect ∧
    (forwardStep self fn fm c).fovy = c.fovy ∧ (forwardStep self fn fm c).znear = c.znear ∧
    (forwardStep self fn fm c).zfar = c.zfar := by
  unfold forwardStep; split <;> simp

/-- `backwardStep` writes at most `eye` and `target`. -/
theorem backwardStep_frame (self : CameraController) (fn : Vec3) (c : Camera) :
    (backwardStep self fn c).up = c.up ∧ (backwardStep self fn c).aspect = c.aspect ∧
    (backwardStep self fn c).fovy = c.fovy ∧ (backwardStep self fn c).znear = c.znear ∧
    (backwardStep self fn c).zfar = c.zfar := by
  unfold backwardStep; split <;> simp

/-- `leftStep` writes at most `eye` and `target`. -/
theorem leftStep_frame (self : CameraController) (fn : Vec3) (c : Camera) :
    (leftStep self fn c).up = c.up ∧ (leftStep self fn c).aspect = c.aspect ∧
    (leftStep self fn c).fovy = c.fovy ∧ (leftStep self fn c).znear = c.znear ∧
    (leftStep self fn c).zfar = c.zfar := by
  unfold leftStep; split <;> simp

/-- `rightStep` writes at most `eye` and `target`. -/
theorem rightStep_frame (self : CameraController) (fn : Vec3) (c : Camera) :
    (rightStep self fn c).up = c.up ∧ (rightStep self fn c).aspect = c.aspect ∧
    (rightStep self fn c).fovy = c.fovy ∧ (rightStep self fn c).znear = c.znear ∧
    (rightStep self fn c).zfar = c.zfar := by
  unfold rightStep; split <;> simp

/-- `leftRotateStep` writes at most `eye` and `target`. -/
theorem leftRotateStep_frame (self : CameraController) (f : Vec3) (c : Camera) :
    (leftRotateStep self f c).up = c.up ∧ (leftRotateStep self f c).aspect = c.aspect ∧
    (leftRotateStep self f c).fovy = c.fovy ∧ (leftRotateStep self f c).znear = c.znear ∧
    (leftRotateStep self f c).zfar = c.zfar := by
  unfold leftRotateStep; split <;> simp

/-- `rightRotateStep` writes at most `eye` and `target`. -/
theorem rightRotateStep_frame (self : CameraController) (f : Vec3) (c : Camera) :
    (rightRotateStep self f c).up = c.up ∧ (rightRotateStep self f c).aspect = c.aspect ∧
    (rightRotateStep self f c).fovy = c.fovy ∧ (rightRotateStep self f c).znear = c.znear ∧
    (rightRotateStep self f c).zfar = c.zfar := by
  unfold rightRotateStep; split <;> simp

/-- `upRotateStep` writes at most `eye` and `target`. -/
theorem upRotateStep_frame (self : CameraController) (fn f : Vec3) (c : Camera) :
    (upRotateStep self fn f c).up = c.up ∧ (upRotateStep self fn f c).aspect = c.aspect ∧
    (upRotateStep self fn f c).fovy = c.fovy ∧ (upRotateStep self fn f c).znear = c.znear ∧
    (upRotateStep self fn f c).zfar = c.zfar := by
  unfold upRotateStep; split <;> simp

/-- `downRotateStep` writes at most `eye` and `target`. -/
theorem downRotateStep_frame (self : CameraController) (fn f : Vec3) (c : Camera) :
    (downRotateStep self fn f c).up = c.up ∧ (downRotateStep self fn f c).aspect = c.aspect ∧
    (downRotateStep self fn f c).fovy = c.fovy ∧ (downRotateStep self fn f c).znear = c.znear ∧
    (downRotateStep self fn f c).zfar = c.zfar := by
  unfold downRotateStep; split <;> simp

/-- `upStep` writes at most `eye` and `target`. -/
theorem upStep_frame (self : CameraController) (c : Camera) :
    (upStep self c).up = c.up ∧ (upStep self c).aspect = c.aspect ∧
    (upStep self c).fovy = c.fovy ∧ (upStep self c).znear = c.znear ∧
    (upStep self c).zfar = c.zfar := by
  unfold upStep; split <;> simp

/-- `downStep` writes at most `eye` and `target`. -/
theorem downStep_frame (self : CameraController) (c : Camera) :
    (downStep self c).up = c.up ∧ (downStep self c).aspect = c.aspect ∧
    (downStep self c).fovy = c.fovy ∧ (downStep self c).znear = c.znear ∧
    (downStep self c).zfar = c.zfar := by
  unfold downStep; split <;> simp

/-- The quadratic identity behind quaternion rotation: when the quaternion
`⟨s, b⟩` is a unit quaternion, `rotate_vector` preserves the squared
magnitude of its argument. -/
theorem normSq_rotateVector (s : ℝ) (b v : Vec3)
    (h : s ^ 2 + (b.x ^ 2 + b.y ^ 2 + b.z ^ 2) = 1) :
    normSq (rotateVector ⟨s, b⟩ v) = normSq v := by
  simp only [rotateVector, normSq, dot, cross, vadd, smul]
  linear_combination
    (4 * ((b.x ^ 2 + b.y ^ 2 + b.z ^ 2) * (v.x ^ 2 + v.y ^ 2 + v.z ^ 2)
      - (b.x * v.x + b.y * v.y + b.z * v.z) ^ 2)) * h

/-! ## Claims -/

/-- C1: for every camera, `build_view_projection_matrix` returns
`Correction × Projection × View`, where `View = look_at_rh(eye, target, up)`,
`Projection = perspective(Deg fovy, aspect, znear, zfar)` and `Correction` is
the constant matrix the spec describes as `diag(1,1,0.5,0)` plus
`translate_z(0.5)` applied as a 4th column (`correctionSpec`); the embedding
is a pure function, so nothing is mutated. -/
theorem build_view_projection_matrix_spec (c : Camera) :
    c.build_view_projection_matrix =
      mat4Mul correctionSpec
        (mat4Mul (perspectiveDeg c.fovy c.aspect c.znear c.zfar)
          (lookAtRh c.eye c.target c.up)) := by
  have h : correctionSpec = OPENGL_TO_WGPU_MATRIX := by
    simp only [correctionSpec, mat4Add, diagMat4, v4add, OPENGL_TO_WGPU_MATRIX]
    norm_num
  rw [Camera.build_view_projection_matrix, h]

/-- C6: a controller whose ten flags are all false leaves every camera's
`eye` and `target` (indeed the whole camera) unchanged. -/
theorem update_camera_fixed_point (ctrl : CameraController) (cam : Camera)
    (h1 : ctrl.is_forward_pressed = false) (h2 : ctrl.is_backward_pressed = false)
    (h3 : ctrl.is_left_pressed = false) (h4 : ctrl.is_right_pressed = false)
    (h5 : ctrl.is_left_rotate_pressed = false) (h6 : ctrl.is_right_rotate_pressed = false)
    (h7 : ctrl.is_up_rotate_pressed = false) (h8 : ctrl.is_down_rotate_pressed = false)
    (h9 : ctrl.is_up_pressed = false) (h10 : ctrl.is_down_pressed = false) :
    ctrl.update_camera cam = cam := by
  obtain ⟨s, f1, f2, f3, f4, f5, f6, f7, f8, f9, f10⟩ := ctrl
  simp only at h1 h2 h3 h4 h5 h6 h7 h8 h9 h10
  subst h1 h2 h3 h4 h5 h6 h7 h8 h9 h10
  exact update_camera_no_flags s cam

/-- C6 witness: a concrete all-false controller and camera. -/
theorem update_camera_fixed_point_witness :
    CameraController.update_camera
      ⟨2, false, false, false, false, false, false, false, false, false, false⟩
      ⟨⟨0, 0, 0⟩, ⟨1, 0, 0⟩, ⟨0, 1, 0⟩, 1, 45, 1, 10⟩ =
      ⟨⟨0, 0, 0⟩, ⟨1, 0, 0⟩, ⟨0, 1, 0⟩, 1, 45, 1, 10⟩ :=
  update_camera_fixed_point _ _ rfl rfl rfl rfl rfl rfl rfl rfl rfl rfl

/-- C10: `CameraController::new(speed)` stores the speed, initializes all ten
flags to false, and the resulting controller leaves any camera unchanged. -/
theorem camera_controller_new_spec (speed : ℝ) :
    (CameraController.new speed).speed = speed ∧
    (CameraController.new speed).is_forward_pressed = false ∧
    (CameraController.new speed).is_backward_pressed = false ∧
    (CameraController.new speed).is_left_pressed = false ∧
    (CameraController.new speed).is_right_pressed = false ∧
    (CameraController.new speed).is_left_rotate_pressed = false ∧
    (CameraController.new speed).is_right_rotate_pressed = false ∧
    (CameraController.new speed).is_up_rotate_pressed = false ∧
    (CameraController.new speed).is_down_rotate_pressed = false ∧
    (CameraController.new speed).is_up_pressed = false ∧
    (CameraController.new speed).is_down_pressed = false ∧
    ∀ cam : Camera, (CameraController.new speed).update_camera cam = cam :=
  ⟨rfl, rfl, rfl, rfl, rfl, rfl, rfl, rfl, rfl, rfl, rfl,
    fun cam => update_camera_no_flags speed cam⟩

/-- C7: `handle_key` recognizes exactly the ten key codes, setting exactly
the corresponding flag to `is_pressed` and returning `true`; every other key
code returns `false` with the controller unchanged. -/
theorem handle_key_spec (ctrl : CameraController) (p : Bool) :
    ctrl.handle_key .keyW p = ({ ctrl with is_forward_pressed := p }, true) ∧
    ctrl.handle_key .keyS p = ({ ctrl with is_backward_pressed := p }, true) ∧
    ctrl.handle_key .keyA p = ({ ctrl with is_left_pressed := p }, true) ∧
    ctrl.handle_key .keyD p = ({ ctrl with is_right_pressed := p }, true) ∧
    ctrl.handle_key .arrowLeft p = ({ ctrl with is_left_rotate_pressed := p }, true) ∧
    ctrl.handle_key .arrowRight p = ({ ctrl with is_right_rotate_pressed := p }, true) ∧
    ctrl.handle_key .arrowUp p = ({ ctrl with is_up_rotate_pressed := p }, true) ∧
    ctrl.handle_key .arrowDown p = ({ ctrl with is_down_rotate_pressed := p }, true) ∧
    ctrl.handle_key .keyE p = ({ ctrl with is_up_pressed := p }, true) ∧
    ctrl.handle_key .keyQ p = ({ ctrl with is_down_pressed := p }, true) ∧
    ∀ n : Nat, ctrl.handle_key (.other n) p = (ctrl, false) :=
  ⟨rfl, rfl, rfl, rfl, rfl, rfl, rfl, rfl, rfl, rfl, fun _ => rfl⟩

/-- C8: `update_camera` mutates at most `eye` and `target`: the `up`,
`aspect`, `fovy`, `znear` and `zfar` fields survive every call unchanged
(the controller, taken by shared reference in Rust, is a plain argument of
the embedding and cannot change). -/
theorem update_camera_frame (ctrl : CameraController) (cam : Camera) :
    (ctrl.update_camera cam).up = cam.up ∧
    (ctrl.update_camera cam).aspect = cam.aspect ∧
    (ctrl.update_camera cam).fovy = cam.fovy ∧
    (ctrl.update_camera cam).znear = cam.znear ∧
    (ctrl.update_camera cam).zfar = cam.zfar := by
  refine ⟨?_, ?_, ?_, ?_, ?_⟩ <;>
    simp [CameraController.update_camera, forwardStep_frame, backwardStep_frame,
      leftStep_frame, rightStep_frame, leftRotateStep_frame, rightRotateStep_frame,
      upRotateStep_frame, downRotateStep_frame, upStep_frame, downStep_frame]

/-- C9: `CameraUniform::new()` starts as the 4×4 identity matrix, and
`update_view_proj` overwrites `view_proj` with exactly
`camera.build_view_projection_matrix()`. -/
theorem camera_uniform_spec :
    CameraUniform.new.view_proj = ⟨⟨1, 0, 0, 0⟩, ⟨0, 1, 0, 0⟩, ⟨0, 0, 1, 0⟩, ⟨0, 0, 0, 1⟩⟩ ∧
    ∀ (u : CameraUniform) (cam : Camera),
      (u.update_view_proj cam).view_proj = cam.build_view_projection_matrix :=
  ⟨rfl, fun _ _ => rfl⟩

/-- C2: with only the forward flag set, if `|target - eye| > speed` both
`eye` and `target` translate by `normalize(target-eye) * speed * 0.05`
(so `target - eye` keeps its direction and magnitude — stated as exact
equality of the difference vector, which holds unconditionally), and if
`|target - eye| ≤ speed` the camera is left unchanged. -/
theorem update_camera_forward_only (speed : ℝ) (cam : Camera) :
    (magnitude (vsub cam.target cam.eye) > speed →
      CameraController.update_camera
        ⟨speed, true, false, false, false, false, false, false, false, false, false⟩ cam =
        { cam with
          eye := vadd cam.eye (smul (smul (vnormalize (vsub cam.target cam.eye)) speed) 0.05),
          target := vadd cam.target (smul (smul (vnormalize (vsub cam.target cam.eye)) speed) 0.05) }) ∧
    (vsub
        (CameraController.update_camera
          ⟨speed, true, false, false, false, false, false, false, false, false, false⟩ cam).target
        (CameraController.update_camera
          ⟨speed, true, false, false, false, false, false, false, false, false, false⟩ cam).eye =
      vsub cam.target cam.eye) ∧
    (magnitude (vsub cam.target cam.eye) ≤ speed →
      CameraController.update_camera
        ⟨speed, true, false, false, false, false, false, false, false, false, false⟩ cam = cam) := by
  refine ⟨fun h => ?_, ?_, fun h => ?_⟩
  · simp [CameraController.update_camera, forwardStep, backwardStep, leftStep, rightStep,
      leftRotateStep, rightRotateStep, upRotateStep, downRotateStep, upStep, downStep, h]
  · rcases lt_or_le speed (magnitude (vsub cam.target cam.eye)) with h | h
    · simp only [CameraController.update_camera, forwardStep, backwardStep, leftStep, rightStep,
        leftRotateStep, rightRotateStep, upRotateStep, downRotateStep, upStep, downStep]
      simp [h]
      ext <;> simp [vadd, vsub, smul]
    · simp [CameraController.update_camera, forwardStep, backwardStep, leftStep, rightStep,
        leftRotateStep, rightRotateStep, upRotateStep, downRotateStep, upStep, downStep,
        not_lt.mpr h]
  · simp [CameraController.update_camera, forwardStep, backwardStep, leftStep, rightStep,
      leftRotateStep, rightRotateStep, upRotateStep, downRotateStep, upStep, downStep,
      not_lt.mpr h]

/-- C2 witness: eye at the origin, target one unit along x, speed 1/2; the
forward magnitude is 1 > 1/2, and the update translates both points. -/
theorem update_camera_forward_only_witness :
    magnitude (vsub (⟨1, 0, 0⟩ : Vec3) (⟨0, 0, 0⟩ : Vec3)) > (1 / 2 : ℝ) ∧
    CameraController.update_camera
      ⟨1 / 2, true, false, false, false, false, false, false, false, false, false⟩
      ⟨⟨0, 0, 0⟩, ⟨1, 0, 0⟩, ⟨0, 1, 0⟩, 1, 45, 1, 10⟩ =
      { (⟨⟨0, 0, 0⟩, ⟨1, 0, 0⟩, ⟨0, 1, 0⟩, 1, 45, 1, 10⟩ : Camera) with
        eye := vadd (⟨0, 0, 0⟩ : Vec3)
          (smul (smul (vnormalize (vsub (⟨1, 0, 0⟩ : Vec3) (⟨0, 0, 0⟩ : Vec3))) (1 / 2)) 0.05),
        target := vadd (⟨1, 0, 0⟩ : Vec3)
          (smul (smul (vnormalize (vsub (⟨1, 0, 0⟩ : Vec3) (⟨0, 0, 0⟩ : Vec3))) (1 / 2)) 0.05) } := by
  have h : magnitude (vsub (⟨1, 0, 0⟩ : Vec3) (⟨0, 0, 0⟩ : Vec3)) > (1 / 2 : ℝ) := by
    have h1 : magnitude (vsub (⟨1, 0, 0⟩ : Vec3) (⟨0, 0, 0⟩ : Vec3)) = 1 := by
      simp [magnitude, normSq, dot, vsub]
    rw [h1]; norm_num
  exact ⟨h, (update_camera_forward_only (1 / 2) ⟨⟨0, 0, 0⟩, ⟨1, 0, 0⟩, ⟨0, 1, 0⟩, 1, 45, 1, 10⟩).1 h⟩

/-- C3: with the backward flag set (and no other flag), both `eye` and
`target` move by `-forward_norm * speed * 0.05` unconditionally: the theorem
has no hypothesis on `|target - eye|`, unlike the guarded forward branch. -/
theorem update_camera_backward_unguarded (speed : ℝ) (cam : Camera) :
    CameraController.update_camera
      ⟨speed, false, true, false, false, false, false, false, false, false, false⟩ cam =
      { cam with
        eye := vsub cam.eye (smul (smul (vnormalize (vsub cam.target cam.eye)) speed) 0.05),
        target := vsub cam.target (smul (smul (vnormalize (vsub cam.target cam.eye)) speed) 0.05) } := by
  simp [CameraController.update_camera, forwardStep, backwardStep, leftStep, rightStep,
    leftRotateStep, rightRotateStep, upRotateStep, downRotateStep, upStep, downStep]

/-- C5: with strafe-left and strafe-right both set (and no other flags), the
two branches subtract and add the same `right = forward_norm × up` vector, so
the net displacement is zero and the camera is returned unchanged. -/
theorem update_camera_strafe_cancel (speed : ℝ) (cam : Camera) :
    CameraController.update_camera
      ⟨speed, false, false, true, true, false, false, false, false, false, false⟩ cam = cam := by
  simp only [CameraController.update_camera, forwardStep, backwardStep, leftStep, rightStep,
    leftRotateStep, rightRotateStep, upRotateStep, downRotateStep, upStep, downStep]
  simp
  ext <;> simp [vadd, vsub, smul]

/-- C4 counterexample: the claim's magnitude-preservation part fails for a
camera whose `up` vector is not unit. With `eye = (0,0,0)`,
`target = (1,0,0)`, `up = (0,0,2)` and `speed = 180`, the quaternion built
by `from_axis_angle` is not unit, `rotate_vector` sends `(1,0,0)` to
`(-7,0,0)`, and `|target - eye|` jumps from `1` to `7`. -/
theorem update_camera_left_rotate_counterexample :
    magnitude (vsub
        (CameraController.update_camera
          ⟨180, false, false, false, false, true, false, false, false, false, false⟩
          ⟨⟨0, 0, 0⟩, ⟨1, 0, 0⟩, ⟨0, 0, 2⟩, 1, 45, 1, 10⟩).target
        (CameraController.update_camera
          ⟨180, false, false, false, false, true, false, false, false, false, false⟩
          ⟨⟨0, 0, 0⟩, ⟨1, 0, 0⟩, ⟨0, 0, 2⟩, 1, 45, 1, 10⟩).eye) ≠
      magnitude (vsub (⟨1, 0, 0⟩ : Vec3) (⟨0, 0, 0⟩ : Vec3)) := by
  have hangle : degToRad 180 * 0.5 = Real.pi / 2 := by unfold degToRad; ring
  have h49 : Real.sqrt 49 = 7 := by
    rw [show (49 : ℝ) = 7 ^ 2 by norm_num]
    exact Real.sqrt_sq (by norm_num)
  have h1 : Real.sqrt 1 = 1 := Real.sqrt_one
  simp [CameraController.update_camera, forwardStep, backwardStep, leftStep, rightStep,
    leftRotateStep, rightRotateStep, upRotateStep, downRotateStep, upStep, downStep,
    quatFromAxisAngleDeg, hangle, rotateVector, cross, vadd, vsub, smul,
    magnitude, normSq, dot]
  norm_num [h49, h1]

/-- C4 (amended: the magnitude-preservation part additionally requires `up`
to be a unit vector, which the spec elsewhere assumes of the caller): with
only the yaw-left flag set, for every camera `eye` is unchanged and `target`
becomes `eye + R(forward)` for the axis-angle rotation `R` by `+speed`
degrees about `up`; and when `|up| = 1` the resulting `|target - eye|`
equals `|forward|`. -/
theorem update_camera_left_rotate_only (speed : ℝ) (cam : Camera) :
    ((CameraController.update_camera
        ⟨speed, false, false, false, false, true, false, false, false, false, false⟩ cam).eye = cam.eye) ∧
    ((CameraController.update_camera
        ⟨speed, false, false, false, false, true, false, false, false, false, false⟩ cam).target =
      vadd cam.eye (rotateVector (quatFromAxisAngleDeg cam.up speed) (vsub cam.target cam.eye))) ∧
    (magnitude cam.up = 1 →
      magnitude (vsub
          (CameraController.update_camera
            ⟨speed, false, false, false, false, true, false, false, false, false, false⟩ cam).target
          (CameraController.update_camera
            ⟨speed, false, false, false, false, true, false, false, false, false, false⟩ cam).eye) =
        magnitude (vsub cam.target cam.eye)) := by
  have hred : CameraController.update_camera
      ⟨speed, false, false, false, false, true, false, false, false, false, false⟩ cam =
      { cam with target := (vadd cam.eye
          (rotateVector (quatFromAxisAngleDeg cam.up speed) (vsub cam.target cam.eye))) } := by
    simp [CameraController.update_camera, forwardStep, backwardStep, leftStep, rightStep,
      leftRotateStep, rightRotateStep, upRotateStep, downRotateStep, upStep, downStep]
  refine ⟨by rw [hred], by rw [hred], fun hup => ?_⟩
  have hnsq : normSq cam.up = 1 := by
    have h0 : 0 ≤ normSq cam.up := by
      simp only [normSq, dot]
      exact add_nonneg (add_nonneg (mul_self_nonneg _) (mul_self_nonneg _)) (mul_self_nonneg _)
    have hsq := Real.sq_sqrt h0
    unfold magnitude at hup
    rw [hup] at hsq
    simpa using hsq.symm
  rw [hred]
  have hv : vsub (vadd cam.eye
      (rotateVector (quatFromAxisAngleDeg cam.up speed) (vsub cam.target cam.eye))) cam.eye =
      rotateVector (quatFromAxisAngleDeg cam.up speed) (vsub cam.target cam.eye) := by
    ext <;> simp [vadd, vsub]
  show magnitude (vsub (vadd cam.eye
      (rotateVector (quatFromAxisAngleDeg cam.up speed) (vsub cam.target cam.eye))) cam.eye) =
      magnitude (vsub cam.target cam.eye)
  rw [hv]
  unfold magnitude
  congr 1
  simp only [quatFromAxisAngleDeg]
  have hh : Real.cos (degToRad speed * 0.5) ^ 2 +
      ((smul cam.up (Real.sin (degToRad speed * 0.5))).x ^ 2 +
        (smul cam.up (Real.sin (degToRad speed * 0.5))).y ^ 2 +
        (smul cam.up (Real.sin (degToRad speed * 0.5))).z ^ 2) = 1 := by
    simp only [normSq, dot] at hnsq
    simp only [smul]
    linear_combination Real.sin_sq_add_cos_sq (degToRad speed * 0.5) +
      Real.sin (degToRad speed * 0.5) ^ 2 * hnsq
  exact normSq_rotateVector _ _ _ hh

/-- C4 witness: a unit `up = (0,0,1)`, `eye = (0,0,0)`, `target = (1,0,0)`
and `speed = 90`, at which all three parts of the amended claim hold. -/
theorem update_camera_left_rotate_only_witness :
    magnitude (⟨0, 0, 1⟩ : Vec3) = 1 ∧
    ((CameraController.update_camera
        ⟨90, false, false, false, false, true, false, false, false, false, false⟩
        ⟨⟨0, 0, 0⟩, ⟨1, 0, 0⟩, ⟨0, 0, 1⟩, 1, 45, 1, 10⟩).eye = (⟨0, 0, 0⟩ : Vec3)) ∧
    ((CameraController.update_camera
        ⟨90, false, false, false, false, true, false, false, false, false, false⟩
        ⟨⟨0, 0, 0⟩, ⟨1, 0, 0⟩, ⟨0, 0, 1⟩, 1, 45, 1, 10⟩).target =
      vadd ⟨0, 0, 0⟩ (rotateVector (quatFromAxisAngleDeg ⟨0, 0, 1⟩ 90)
        (vsub ⟨1, 0, 0⟩ ⟨0, 0, 0⟩))) ∧
    magnitude (vsub
        (CameraController.update_camera
          ⟨90, false, false, false, false, true, false, false, false, false, false⟩
          ⟨⟨0, 0, 0⟩, ⟨1, 0, 0⟩, ⟨0, 0, 1⟩, 1, 45, 1, 10⟩).target
        (CameraController.update_camera
          ⟨90, false, false, false, false, true, false, false, false, false, false⟩
          ⟨⟨0, 0, 0⟩, ⟨1, 0, 0⟩, ⟨0, 0, 1⟩, 1, 45, 1, 10⟩).eye) =
      magnitude (vsub ⟨1, 0, 0⟩ ⟨0, 0, 0⟩) := by
  have h : magnitude (⟨0, 0, 1⟩ : Vec3) = 1 := by
    simp [magnitude, normSq, dot]
  obtain ⟨h1, h2, h3⟩ :=
    update_camera_left_rotate_only 90 ⟨⟨0, 0, 0⟩, ⟨1, 0, 0⟩, ⟨0, 0, 1⟩, 1, 45, 1, 10⟩
  exact ⟨h, h1, h2, h3 h⟩
